import Mathlib

/-!
Shallow embedding of `selfpromobot.py` (r/anime self-promotion moderation bot).

The bot polls a subreddit's new-post feed, classifies each unseen post
(fanart / clip / video edit / video), and for each matching post scans the
author's submission history inside a trailing time window, removing the post
when the per-category repeat limit is exceeded.  A (currently disabled)
self-promotion-ratio check aggregates an author's mixed post/comment history
into a tally and reports when the ratio exceeds a threshold.

Modelling conventions:
* Reddit items are records of the fields the code reads; timestamps are
  integer seconds (`created_utc`), and `now` is passed explicitly where the
  code calls `datetime.now`.
* External listings (`subreddit.new`, `user.new`, `author.submissions.new`)
  are passed as explicit lists, newest first where the code relies on it
  (stated as a hypothesis where needed).
* Mutating calls (`post.mod.remove`, `post.report`, removal messages) are
  collected as a list of `Effect`s.
* Python `x / y` on a zero denominator raises `ZeroDivisionError`; the
  embedding of `check_sp_ratio` returns `Except String _` accordingly.
-/

/-- Configuration options read by the bot (the `[Options]` section). -/
structure Config where
  subreddit : String
  threshold : ℚ
  history : Nat
  posts_per_run : Nat
  deriving Repr, DecidableEq

/-- A reddit submission (post), with exactly the fields the code reads. -/
structure Submission where
  id : String
  subreddit : String
  title : String
  url : String
  selftext : String
  link_flair_text : Option String
  is_self : Bool
  is_original_content : Bool
  is_video : Bool
  is_reddit_media_domain : Bool
  created_utc : Int
  removed : Bool
  banned_by : Option String
  deriving Repr, DecidableEq

/-- A reddit comment, with exactly the fields the code reads.
`submission` is the parent post (`comment.submission`). -/
structure Comment where
  id : String
  subreddit : String
  body : String
  is_submitter : Bool
  submission : Submission
  created_utc : Int
  removed : Bool
  banned_by : Option String
  deriving Repr, DecidableEq

/-- An item of a user's mixed history (`user.new` yields posts and comments). -/
inductive Item where
  | submission (s : Submission)
  | comment (c : Comment)
  deriving Repr, DecidableEq

/-- Accessor for `item.subreddit.display_name` for either item shape. -/
def Item.subredditName : Item → String
  | .submission s => s.subreddit
  | .comment c => c.subreddit

/-- Python `needle in hay` (substring containment), via character lists. -/
def charsPre : List Char → List Char → Bool
  | [], _ => true
  | _ :: _, [] => false
  | a :: as, b :: bs => a = b && charsPre as bs

/-- Helper for `strContains`: does `needle` occur at the start of any suffix? -/
def charsContains (needle : List Char) : List Char → Bool
  | [] => charsPre needle []
  | c :: cs => charsPre needle (c :: cs) || charsContains needle cs

/-- Python `needle in hay` on strings. -/
def strContains (hay needle : String) : Bool :=
  charsContains needle.toList hay.toList

/-- Python `s.lower()`. -/
def strLower (s : String) : String :=
  String.mk (s.toList.map Char.toLower)

/-- Python `is_removed(item)` for submissions: `item.removed or item.banned_by is not None`. -/
def is_removed (s : Submission) : Bool :=
  s.removed || s.banned_by.isSome

/-- Python `is_removed(item)` applied to a history item of either shape. -/
def Item.isRemoved : Item → Bool
  | .submission s => is_removed s
  | .comment c => c.removed || c.banned_by.isSome

/-- The `for domain in domains` loop in `is_selfpromotion`:
`if post.is_self and domain in post.selftext: return True
 elif domain in post.url: return True`. -/
def domainLoop (post : Submission) : List String → Bool
  | [] => false
  | d :: ds =>
    if post.is_self && strContains post.selftext d then true
    else if strContains post.url d then true
    else domainLoop post ds

/-- Python `is_selfpromotion(post)`: the heuristic classifier, translated
condition-for-condition from the Python if-chain (which returns at the first
hit).  `config` is the module-level global the function reads. -/
def is_selfpromotion (config : Config) (post : Submission) : Bool :=
  if post.is_original_content then true
  else if post.link_flair_text = some "OC Fanart" then true
  else if post.link_flair_text = some "Fanart" ∧ post.is_self = false then true
  else if post.link_flair_text = some "Fanart Misc" ∧ post.is_self = false then true
  else if post.link_flair_text = some "Question" then false
  else if post.link_flair_text = some "News" then false
  else if post.link_flair_text = some "Rewatch" then false
  else if post.link_flair_text = some "Official Media" then false
  else if post.link_flair_text = some "Clip" then false
  else
    let title := strLower post.title
    if strContains title "[oc]" || strContains title "(oc)" || strContains title "original" then true
    else if strContains title "i made" || strContains title "i drew" || strContains title "my " then true
    else if strContains title "i tried" || strContains title "attempt" then true
    else if strContains title "sketch" || strContains title "drawing" then true
    else if (post.is_video || post.is_reddit_media_domain) ∧ post.subreddit = config.subreddit then true
    else if strContains post.url "imgur.com" then true
    else if strContains post.url "youtube.com" || strContains post.url "youtu.be" then true
    else domainLoop post ["deviantart.com", "instagram.com", "artstation.com"]

/-- The domain loop of `is_selfpromotion_comment`. -/
def commentDomainLoop (c : Comment) : List String → Bool
  | [] => false
  | d :: ds =>
    if strContains (strLower c.body) d then true
    else commentDomainLoop c ds

/-- Python `is_selfpromotion_comment(comment)`. -/
def is_selfpromotion_comment (c : Comment) : Bool :=
  commentDomainLoop c ["deviantart.com", "instagram.com", "artstation.com", "patreon.com", "pixiv.net"]

/-- Python `is_fanart(post)`. -/
def is_fanart (config : Config) (post : Submission) : Bool :=
  post.subreddit = config.subreddit && post.link_flair_text = some "Fanart"

/-- Python `is_clip(post)`. -/
def is_clip (config : Config) (post : Submission) : Bool :=
  post.subreddit = config.subreddit && post.link_flair_text = some "Clip"

/-- Python `is_video_edit(post)`. -/
def is_video_edit (config : Config) (post : Submission) : Bool :=
  post.subreddit = config.subreddit && post.link_flair_text = some "Video Edit"

/-- Python `is_video(post)`. -/
def is_video (config : Config) (post : Submission) : Bool :=
  post.subreddit = config.subreddit && post.link_flair_text = some "Video"

/-- A mutating reddit call issued by the bot: `post.report(reason)`,
`post.mod.remove(mod_note=reason)`, or `post.mod.send_removal_message(text)`. -/
inductive Effect where
  | reportPost (target : String) (reason : String)
  | modRemove (target : String) (modNote : String)
  | sendRemovalMessage (target : String) (text : String)
  deriving Repr, DecidableEq

/-- Python `REMOVAL_MESSAGE_TEMPLATE.format(message=message)`. -/
def removalMessageTemplate (message : String) : String :=
  "Sorry, your submission has been removed.\n\n" ++ message ++ "\n\n\n" ++
    "*I am a bot, and this action was performed automatically. Please\n" ++
    "[contact the moderators of this subreddit](https://www.reddit.com/message/compose/?to=/r/anime)\n" ++
    "if you have any questions or concerns.*"

/-- Python `report(post, reason)`: in debug mode no call is issued. -/
def report (debug : Bool) (post : Submission) (reason : String) : List Effect :=
  if debug then []
  else [Effect.reportPost post.id reason]

/-- Python `remove(post, reason, message)`: in debug mode no call is issued;
otherwise, if the post is already removed, the function logs and returns
without issuing any call; otherwise it removes and, when a message is given,
sends the formatted removal message. -/
def remove (debug : Bool) (post : Submission) (reason : String)
    (message : Option String) : List Effect :=
  if debug then []
  else if is_removed post then []
  else
    Effect.modRemove post.id reason ::
      (match message with
       | some m => [Effect.sendRemovalMessage post.id (removalMessageTemplate m)]
       | none => [])

/-- Result of one window-frequency scan over an author's submission listing.
`count` is the final value of the Python local `count`; `counted` is a ghost
record of the submissions that incremented `count` (for stating invariants);
`effects` are the mutating calls issued (via `remove`) during the scan. -/
structure ScanResult where
  count : Nat
  counted : List Submission
  effects : List Effect
  deriving Repr, DecidableEq

/-- The common body of the four `check_*_frequency` loops, parametrised by the
category predicate, window duration (seconds), removal mod-note (a function of
the submission at which the limit was exceeded — constant for all checks but
fanart), and removal message.  For each submission of the author's listing
(newest first): skip it if it is in the monitored subreddit and removed; break
if its age exceeds the window; count it if it matches; on `count > 2` call
`remove` on the triggering post and break. -/
def freqScanAux (debug : Bool) (now : Int) (config : Config) (post : Submission)
    (pred : Config → Submission → Bool) (window : Int)
    (reasonOf : Submission → String) (message : String) :
    Nat → List Submission → ScanResult
  | count, [] => ⟨count, [], []⟩
  | count, s :: rest =>
    if s.subreddit = config.subreddit && is_removed s then
      freqScanAux debug now config post pred window reasonOf message count rest
    else if now - s.created_utc > window then ⟨count, [], []⟩
    else if pred config s then
      if count + 1 > 2 then
        ⟨count + 1, [s], remove debug post (reasonOf s) (some message)⟩
      else
        let r := freqScanAux debug now config post pred window reasonOf message (count + 1) rest
        ⟨r.count, s :: r.counted, r.effects⟩
    else
      if count > 2 then ⟨count, [], remove debug post (reasonOf s) (some message)⟩
      else freqScanAux debug now config post pred window reasonOf message count rest

/-- Window for `check_fanart_frequency` and `check_video_frequency`:
`timedelta(days=6, hours=23, minutes=45)` in seconds. -/
def fanartWindow : Int := 6 * 86400 + 23 * 3600 + 45 * 60

/-- Window for `check_clip_frequency` and `check_video_edit_frequency`:
`timedelta(days=29, hours=23, minutes=45)` in seconds. -/
def clipWindow : Int := 29 * 86400 + 23 * 3600 + 45 * 60

/-- Python `check_fanart_frequency(reddit, config, post)`: `subs` is the
listing `post.author.submissions.new()`, newest first. -/
def check_fanart_frequency (debug : Bool) (now : Int) (config : Config)
    (post : Submission) (subs : List Submission) : ScanResult :=
  freqScanAux debug now config post is_fanart fanartWindow
    (fun s => "Recent fanart (id: " ++ s.id ++ ")")
    "You may only submit two fanart posts in a 7-day period." 0 subs

/-- Python `check_clip_frequency(reddit, config, post)`. -/
def check_clip_frequency (debug : Bool) (now : Int) (config : Config)
    (post : Submission) (subs : List Submission) : ScanResult :=
  freqScanAux debug now config post is_clip clipWindow
    (fun _ => "Too many clips submitted")
    "You may only submit two clips every 30 days." 0 subs

/-- Python `check_video_edit_frequency(reddit, config, post)` (its mod-note
reason says clips, as in the source). -/
def check_video_edit_frequency (debug : Bool) (now : Int) (config : Config)
    (post : Submission) (subs : List Submission) : ScanResult :=
  freqScanAux debug now config post is_video_edit clipWindow
    (fun _ => "Too many clips submitted")
    "You may only submit two video edits every 30 days." 0 subs

/-- Python `check_video_frequency(reddit, config, post)`. -/
def check_video_frequency (debug : Bool) (now : Int) (config : Config)
    (post : Submission) (subs : List Submission) : ScanResult :=
  freqScanAux debug now config post is_video fanartWindow
    (fun _ => "Too many videos submitted")
    "You can only submit 2 videos at most every 7 days." 0 subs

/-- The tally dict built by `read_history`. -/
structure HistoryTally where
  selfpromo_posts : Nat
  other_posts : Nat
  selfpromo_comments : Nat
  ignored_comments : Nat
  other_comments : Nat
  deriving Repr, DecidableEq

/-- The zero-initialised tally at the top of `read_history`. -/
def initTally : HistoryTally := ⟨0, 0, 0, 0, 0⟩

/-- Sum of all five buckets of a tally. -/
def HistoryTally.total (h : HistoryTally) : Nat :=
  h.selfpromo_posts + h.other_posts + h.selfpromo_comments +
    h.ignored_comments + h.other_comments

/-- One iteration of the `for item in user.new(...)` loop of `read_history`:
skip the item if it is in the monitored subreddit and removed, otherwise
classify it and increment the matching bucket. -/
def tallyItem (config : Config) (h : HistoryTally) (item : Item) : HistoryTally :=
  if item.subredditName = config.subreddit && item.isRemoved then h
  else
    match item with
    | .submission s =>
      if is_selfpromotion config s then
        { h with selfpromo_posts := h.selfpromo_posts + 1 }
      else
        { h with other_posts := h.other_posts + 1 }
    | .comment c =>
      if c.is_submitter && is_selfpromotion config c.submission then
        { h with ignored_comments := h.ignored_comments + 1 }
      else if is_selfpromotion_comment c then
        { h with selfpromo_comments := h.selfpromo_comments + 1 }
      else
        { h with other_comments := h.other_comments + 1 }

/-- Python `read_history(reddit, config, user)`: `items` is the listing
`user.new(limit=max_history)` (already bounded by the fetch limit). -/
def read_history (config : Config) (items : List Item) : HistoryTally :=
  items.foldl (tallyItem config) initTally

/-- Python `round(x, 2)` on the ratio (exact rational rounding; the float
rounding details are immaterial to the properties below). -/
def roundTo2 (q : ℚ) : ℚ := (round (q * 100) : ℤ) / 100

/-- Python `check_sp_ratio(reddit, config, post)`: computes the tally of the
author's history, then `selfpromo_posts / (selfpromo_posts + other_posts +
other_comments)`.  A zero denominator raises `ZeroDivisionError` in Python,
embedded as `Except.error`.  On success, returns the rounded ratio and the
effects issued (a report when the ratio exceeds the threshold). -/
def check_sp_ratio (debug : Bool) (config : Config) (post : Submission)
    (items : List Item) : Except String (ℚ × List Effect) :=
  let history := read_history config items
  let denom := history.selfpromo_posts + history.other_posts + history.other_comments
  if denom = 0 then Except.error "ZeroDivisionError"
  else
    let ratio := roundTo2 ((history.selfpromo_posts : ℚ) / (denom : ℚ))
    Except.ok (ratio,
      if ratio > config.threshold then
        report debug post ("Possible excessive self-promotion (ratio: " ++ toString ratio ++ ")")
      else [])

/-- The per-category checks the main loop can invoke on a new post. -/
inductive Check where
  | fanartFreq
  | clipFreq
  | videoEditFreq
  | videoFreq
  | spRatio
  deriving Repr, DecidableEq

/-- The body of the main loop run on a post that is not in `checked`: which
checks are invoked, in source order.  The self-promo-ratio block
(`is_selfpromotion` / `check_sp_ratio`) is commented out in the source, so no
post ever triggers `Check.spRatio`. -/
def processPost (config : Config) (post : Submission) : List Check :=
  (if is_fanart config post then [Check.fanartFreq] else []) ++
  (if is_clip config post then [Check.clipFreq] else []) ++
  (if is_video_edit config post then [Check.videoEditFreq] else []) ++
  (if is_video config post then [Check.videoFreq] else [])

/-- The `for post in subreddit.new(...)` loop of one poll iteration, before
pruning.  `checked` holds the ids of already-seen posts (praw compares reddit
objects by id).  Returns the updated `checked` list and, for each post that
was actually processed, its id with the checks that ran on it. -/
def pollScan (config : Config) (checked : List String) :
    List Submission → List String × List (String × List Check)
  | [] => (checked, [])
  | p :: ps =>
    if p.id ∈ checked then pollScan config checked ps
    else
      let r := pollScan config (checked ++ [p.id]) ps
      (r.1, (p.id, processPost config p) :: r.2)

/-- Python `checked = checked[-3 * posts_per_run:]`: keep the last `k`
entries (Python slicing keeps the whole list when `k = 0`). -/
def pruneChecked (checked : List String) (k : Nat) : List String :=
  if k = 0 then checked else checked.drop (checked.length - k)

/-- One iteration of the `while True` main loop: process the feed page,
then prune `checked` to the last `3 * posts_per_run` entries. -/
def pollStep (config : Config) (checked : List String) (page : List Submission) :
    List String × List (String × List Check) :=
  let r := pollScan config checked page
  (pruneChecked r.1 (3 * config.posts_per_run), r.2)

/-! Concrete fixtures for scenario evaluation. -/

/-- A sample configuration (monitored subreddit `anime`, threshold 0.5). -/
def cfgA : Config :=
  { subreddit := "anime", threshold := 1/2, history := 1000, posts_per_run := 25 }

/-- Reference scan time for the scenarios, in epoch seconds. -/
def now0 : Int := 1700000000

/-- A fanart-flaired post in the monitored subreddit, created at `now0`. -/
def basePost : Submission :=
  { id := "t0", subreddit := "anime", title := "a drawing of rem",
    url := "https://i.redd.it/abc.png", selftext := "",
    link_flair_text := some "Fanart", is_self := false,
    is_original_content := false, is_video := false,
    is_reddit_media_domain := false, created_utc := now0,
    removed := false, banned_by := none }

/-- Prior fanart, 2 days old (posted on day 5 of the 7-day scenarios). -/
def postD5 : Submission := { basePost with id := "p5", created_utc := now0 - 172800 }

/-- Prior fanart, 5 days old (posted on day 2 of the 7-day scenarios). -/
def postD2 : Submission := { basePost with id := "p2", created_utc := now0 - 432000 }

/-- Prior fanart, 6 days 23 hours old (posted on day 0, inside the
6-day-23h45m window). -/
def postD0 : Submission := { basePost with id := "p0", created_utc := now0 - 601200 }

/-- Scenario C's day-0 item: same as `postD0` but already removed. -/
def postD0removed : Submission := { postD0 with removed := true }

/-- An already-removed in-area post (for the `remove` no-op and skip rules). -/
def removedPost : Submission := { basePost with id := "r0", removed := true }

/-- A post flaired `Question` whose originality flag is set. -/
def questionOC : Submission :=
  { basePost with id := "q0", link_flair_text := some "Question", is_original_content := true }

/-- A post from outside the monitored subreddit whose originality flag is set. -/
def outsideOC : Submission :=
  { basePost with id := "x1", subreddit := "art", is_original_content := true }

/-! Claim theorems. -/

/-- C2: the spec defines a zero denominator as ratio 0 with no report, but the
code divides unguarded: on an empty history (all tallies zero) `check_sp_ratio`
raises `ZeroDivisionError` instead of returning ratio 0. -/
theorem C2_zero_denominator_raises (debug : Bool) (config : Config) (post : Submission) :
    check_sp_ratio debug config post [] = Except.error "ZeroDivisionError" := rfl

/-- C8: in non-dry mode, `remove` on an item that is already removed or banned
issues no mutating call at all: it logs and returns. -/
theorem C8_remove_noop_when_removed (post : Submission) (reason : String)
    (message : Option String) (h : is_removed post = true) :
    remove false post reason message = [] := by
  simp [remove, h]

/-- C8 witness: `remove` on the concrete already-removed post issues nothing. -/
theorem C8_remove_noop_witness :
    is_removed removedPost = true ∧ remove false removedPost "r" (some "m") = [] :=
  ⟨by decide, C8_remove_noop_when_removed removedPost "r" (some "m") (by decide)⟩

/-- C3 counterexample: a post flaired `Question` with the originality flag set
is classified as self-promotion — `is_original_content` is tested before the
tag exclusions, so the exclusion list does not override the originality flag. -/
theorem C3_counterexample : is_selfpromotion cfgA questionOC = true := by decide

/-- C9 counterexample: a post from outside the monitored subreddit whose
originality flag is set is tallied into `selfpromo_posts` (the ratio's
numerator), not into `other_posts`. -/
theorem C9_counterexample :
    read_history cfgA [Item.submission outsideOC] =
      { selfpromo_posts := 1, other_posts := 0, selfpromo_comments := 0,
        ignored_comments := 0, other_comments := 0 } := by decide

/-- C3 amended: the tag exclusions make `is_selfpromotion` false regardless of
title, URL and all later heuristics, provided the originality flag is clear —
the `is_original_content` test precedes the exclusion list and overrides it. -/
theorem C3_amended (config : Config) (post : Submission)
    (hoc : post.is_original_content = false)
    (hflair : post.link_flair_text = some "Question" ∨ post.link_flair_text = some "News" ∨
      post.link_flair_text = some "Rewatch" ∨ post.link_flair_text = some "Official Media" ∨
      post.link_flair_text = some "Clip") :
    is_selfpromotion config post = false := by
  rcases hflair with h | h | h | h | h <;> simp [is_selfpromotion, hoc, h]

/-- C3 witness: a `Question`-flaired post without the originality flag, whose
title (`drawing`) and media URL would otherwise classify it, is not
self-promotion. -/
theorem C3_amended_witness :
    ({ basePost with link_flair_text := some "Question" } : Submission).is_original_content = false
    ∧ is_selfpromotion cfgA { basePost with link_flair_text := some "Question" } = false :=
  ⟨by decide, C3_amended cfgA _ (by decide) (Or.inl (by decide))⟩

/-- Skip rule of `read_history`: an in-area removed item leaves the tally
unchanged. -/
theorem tallyItem_skip (config : Config) (h : HistoryTally) (item : Item)
    (h1 : item.subredditName = config.subreddit) (h2 : item.isRemoved = true) :
    tallyItem config h item = h := by
  simp [tallyItem, h1, h2]

/-- C6: an in-area item that is already removed or banned increments none of
the five tally buckets: the fold step leaves the tally unchanged, and deleting
the item from the history leaves the aggregate unchanged. -/
theorem C6_removed_in_area_not_counted (config : Config) (h0 : HistoryTally)
    (item : Item) (pre rest : List Item)
    (h1 : item.subredditName = config.subreddit) (h2 : item.isRemoved = true) :
    tallyItem config h0 item = h0 ∧
      read_history config (pre ++ item :: rest) = read_history config (pre ++ rest) := by
  refine ⟨tallyItem_skip config h0 item h1 h2, ?_⟩
  unfold read_history
  rw [List.foldl_append, List.foldl_append, List.foldl_cons,
    tallyItem_skip config _ item h1 h2]

/-- C6 witness: the concrete removed in-area post is skipped by the tally. -/
theorem C6_witness :
    (Item.submission removedPost).subredditName = cfgA.subreddit
    ∧ (Item.submission removedPost).isRemoved = true
    ∧ tallyItem cfgA initTally (Item.submission removedPost) = initTally
    ∧ read_history cfgA ([Item.submission postD5] ++ Item.submission removedPost ::
        [Item.submission outsideOC]) =
      read_history cfgA ([Item.submission postD5] ++ [Item.submission outsideOC]) :=
  ⟨by decide, by decide,
    (C6_removed_in_area_not_counted cfgA initTally (Item.submission removedPost)
      [Item.submission postD5] [Item.submission outsideOC] (by decide) (by decide)).1,
    (C6_removed_in_area_not_counted cfgA initTally (Item.submission removedPost)
      [Item.submission postD5] [Item.submission outsideOC] (by decide) (by decide)).2⟩

/-- C9 amended: an item from outside the monitored subreddit is never skipped
(the removed-item skip requires an area match) and is classified by the normal
heuristics, incrementing exactly one of the five buckets — not necessarily an
`other` bucket. -/
theorem C9_amended (config : Config) (h : HistoryTally) (item : Item)
    (hout : item.subredditName ≠ config.subreddit) :
    (tallyItem config h item).total = h.total + 1 := by
  have hskip : (item.subredditName = config.subreddit && item.isRemoved) = false := by
    simp [hout]
  cases item with
  | submission s =>
    simp only [tallyItem, hskip, Bool.false_eq_true, if_false]
    split <;> simp [HistoryTally.total] <;> omega
  | comment c =>
    simp only [tallyItem, hskip, Bool.false_eq_true, if_false]
    split
    · simp [HistoryTally.total]; omega
    · split <;> simp [HistoryTally.total] <;> omega

/-- C9 witness: the out-of-area original-content post increments exactly one
bucket of the empty tally. -/
theorem C9_amended_witness :
    (Item.submission outsideOC).subredditName ≠ cfgA.subreddit
    ∧ (tallyItem cfgA initTally (Item.submission outsideOC)).total = initTally.total + 1 :=
  ⟨by decide, C9_amended cfgA initTally (Item.submission outsideOC) (by decide)⟩

section FreqScan

variable (debug : Bool) (now : Int) (config : Config) (post : Submission)
  (pred : Config → Submission → Bool) (window : Int)
  (reasonOf : Submission → String) (message : String)

/-- Scan step: an in-area removed submission is skipped (`continue`). -/
theorem freqScanAux_cons_skip (count : Nat) (s : Submission) (rest : List Submission)
    (h1 : s.subreddit = config.subreddit) (h2 : is_removed s = true) :
    freqScanAux debug now config post pred window reasonOf message count (s :: rest) =
      freqScanAux debug now config post pred window reasonOf message count rest := by
  simp [freqScanAux, h1, h2]

/-- Scan step: a non-removed, in-window, category-matching submission is
counted when the running count stays within the limit, and the scan recurses. -/
theorem freqScanAux_cons_count (count : Nat) (s : Submission) (rest : List Submission)
    (h2 : is_removed s = false) (hwin : now - s.created_utc ≤ window)
    (hpred : pred config s = true) (hlim : count + 1 ≤ 2) :
    freqScanAux debug now config post pred window reasonOf message count (s :: rest) =
      { count := (freqScanAux debug now config post pred window reasonOf message (count + 1) rest).count,
        counted := s :: (freqScanAux debug now config post pred window reasonOf message (count + 1) rest).counted,
        effects := (freqScanAux debug now config post pred window reasonOf message (count + 1) rest).effects } := by
  simp [freqScanAux, h2, hpred, not_lt.mpr hwin, Nat.not_lt.mpr hlim]

/-- Scan step: when counting a matching submission pushes the count past the
limit, the triggering post is removed citing that submission, and the scan
stops. -/
theorem freqScanAux_cons_limit (count : Nat) (s : Submission) (rest : List Submission)
    (h2 : is_removed s = false) (hwin : now - s.created_utc ≤ window)
    (hpred : pred config s = true) (hlim : count + 1 > 2) :
    freqScanAux debug now config post pred window reasonOf message count (s :: rest) =
      ⟨count + 1, [s], remove debug post (reasonOf s) (some message)⟩ := by
  simp [freqScanAux, h2, hpred, not_lt.mpr hwin, hlim]

/-- Three category matches in a row — the triggering post itself and two
in-window prior matches — drive the count to 3 and remove the triggering
post citing the second prior match; anything later in the listing is never
examined. -/
theorem freqScanAux_three (today p1 p2 : Submission) (junk : List Submission)
    (ht2 : is_removed today = false) (ht3 : now - today.created_utc ≤ window)
    (ht4 : pred config today = true)
    (h11 : is_removed p1 = false) (h12 : now - p1.created_utc ≤ window)
    (h13 : pred config p1 = true)
    (h21 : is_removed p2 = false) (h22 : now - p2.created_utc ≤ window)
    (h23 : pred config p2 = true) :
    freqScanAux debug now config post pred window reasonOf message 0
        ([today, p1, p2] ++ junk) =
      ⟨3, [today, p1, p2], remove debug post (reasonOf p2) (some message)⟩ := by
  have e0 := freqScanAux_cons_count debug now config post pred window reasonOf message
    0 today ([p1, p2] ++ junk) ht2 ht3 ht4 (by omega)
  have e1 := freqScanAux_cons_count debug now config post pred window reasonOf message
    1 p1 ([p2] ++ junk) h11 h12 h13 (by omega)
  have e2 := freqScanAux_cons_limit debug now config post pred window reasonOf message
    2 p2 junk h21 h22 h23 (by omega)
  simp only [List.cons_append, List.nil_append] at e0 e1 e2 ⊢
  rw [e0, e1, e2]

end FreqScan

/-- Clip-flaired post in the monitored subreddit, created at `now0`. -/
def clipToday : Submission := { basePost with id := "c0", link_flair_text := some "Clip" }

/-- Prior clip, 10 days old. -/
def clipP1 : Submission := { clipToday with id := "c1", created_utc := now0 - 864000 }

/-- Prior clip, 20 days old. -/
def clipP2 : Submission := { clipToday with id := "c2", created_utc := now0 - 1728000 }

set_option maxRecDepth 8192 in
/-- C1 counterexample (Scenario C): a new fanart post whose in-window
non-removed history holds exactly 2 prior fanart matches (the third prior
match, `postD0removed`, is removed) IS removed: the scan counts the new post
itself, so the count reaches 3 at the second prior match and `remove` fires
on the new post. -/
theorem C1_counterexample :
    check_fanart_frequency false now0 cfgA basePost
        [basePost, postD5, postD2, postD0removed] =
      ⟨3, [basePost, postD5, postD2],
        [Effect.modRemove "t0" "Recent fanart (id: p2)",
         Effect.sendRemovalMessage "t0" (removalMessageTemplate
           "You may only submit two fanart posts in a 7-day period.")]⟩ := by
  decide

/-- C1 amended: with a new fanart post and 2 prior in-window, non-removed
fanart matches, the scan counts the new post too; the count reaches 3,
exceeding the limit 2, and the new post is removed citing the second prior
match — whatever follows in the listing (such as a removed third prior
match) is never examined. -/
theorem C1_amended (now : Int) (config : Config) (today p1 p2 : Submission)
    (junk : List Submission)
    (ht2 : is_removed today = false) (ht3 : now - today.created_utc ≤ fanartWindow)
    (ht4 : is_fanart config today = true)
    (h11 : is_removed p1 = false) (h12 : now - p1.created_utc ≤ fanartWindow)
    (h13 : is_fanart config p1 = true)
    (h21 : is_removed p2 = false) (h22 : now - p2.created_utc ≤ fanartWindow)
    (h23 : is_fanart config p2 = true) :
    check_fanart_frequency false now config today ([today, p1, p2] ++ junk) =
      ⟨3, [today, p1, p2],
        [Effect.modRemove today.id ("Recent fanart (id: " ++ p2.id ++ ")"),
         Effect.sendRemovalMessage today.id (removalMessageTemplate
           "You may only submit two fanart posts in a 7-day period.")]⟩ := by
  have e := freqScanAux_three false now config today is_fanart fanartWindow
    (fun s => "Recent fanart (id: " ++ s.id ++ ")")
    "You may only submit two fanart posts in a 7-day period."
    today p1 p2 junk ht2 ht3 ht4 h11 h12 h13 h21 h22 h23
  unfold check_fanart_frequency
  rw [e]
  simp [remove, ht2]

/-- C1 witness: Scenario C instantiated concretely through `C1_amended`. -/
theorem C1_amended_witness :
    check_fanart_frequency false now0 cfgA basePost
        ([basePost, postD5, postD2] ++ [postD0removed]) =
      ⟨3, [basePost, postD5, postD2],
        [Effect.modRemove basePost.id ("Recent fanart (id: " ++ postD2.id ++ ")"),
         Effect.sendRemovalMessage basePost.id (removalMessageTemplate
           "You may only submit two fanart posts in a 7-day period.")]⟩ :=
  C1_amended now0 cfgA basePost postD5 postD2 [postD0removed]
    (by decide) (by decide) (by decide) (by decide) (by decide) (by decide)
    (by decide) (by decide) (by decide)

set_option maxRecDepth 8192 in
/-- C5 counterexample (Scenario B): with prior fanart on days 0, 2 and 5 all
in-window and a 4th fanart today, the removal's evidence cites the day-2 item
(`p2`, the submission at which the count reached 3, the new post itself being
counted) — not the day-5 item (`p5`) as the claim states. -/
theorem C5_counterexample :
    check_fanart_frequency false now0 cfgA basePost
        [basePost, postD5, postD2, postD0] =
      ⟨3, [basePost, postD5, postD2],
        [Effect.modRemove "t0" "Recent fanart (id: p2)",
         Effect.sendRemovalMessage "t0" (removalMessageTemplate
           "You may only submit two fanart posts in a 7-day period.")]⟩
    ∧ ("Recent fanart (id: p2)" : String) ≠ "Recent fanart (id: p5)" := by
  decide

/-- C5 amended: when the running count exceeds the limit the triggering post
is removed and scanning stops (later listing entries are never examined), but
only the fanart check's mod-note cites the offending submission's identifier —
the clip check uses a fixed reason with no identifier — and the cited fanart
item is the one at which the count exceeded the limit (in Scenario B, the
day-2 item, since the new post itself is counted). -/
theorem C5_amended :
    (∀ (now : Int) (config : Config) (today p1 p2 : Submission) (junk : List Submission),
      is_removed today = false → now - today.created_utc ≤ fanartWindow →
      is_fanart config today = true →
      is_removed p1 = false → now - p1.created_utc ≤ fanartWindow →
      is_fanart config p1 = true →
      is_removed p2 = false → now - p2.created_utc ≤ fanartWindow →
      is_fanart config p2 = true →
      check_fanart_frequency false now config today ([today, p1, p2] ++ junk) =
        ⟨3, [today, p1, p2],
          [Effect.modRemove today.id ("Recent fanart (id: " ++ p2.id ++ ")"),
           Effect.sendRemovalMessage today.id (removalMessageTemplate
             "You may only submit two fanart posts in a 7-day period.")]⟩)
    ∧ (∀ (now : Int) (config : Config) (today p1 p2 : Submission) (junk : List Submission),
      is_removed today = false → now - today.created_utc ≤ clipWindow →
      is_clip config today = true →
      is_removed p1 = false → now - p1.created_utc ≤ clipWindow →
      is_clip config p1 = true →
      is_removed p2 = false → now - p2.created_utc ≤ clipWindow →
      is_clip config p2 = true →
      check_clip_frequency false now config today ([today, p1, p2] ++ junk) =
        ⟨3, [today, p1, p2],
          [Effect.modRemove today.id "Too many clips submitted",
           Effect.sendRemovalMessage today.id (removalMessageTemplate
             "You may only submit two clips every 30 days.")]⟩) := by
  constructor
  · intro now config today p1 p2 junk ht2 ht3 ht4 h11 h12 h13 h21 h22 h23
    have e := freqScanAux_three false now config today is_fanart fanartWindow
      (fun s => "Recent fanart (id: " ++ s.id ++ ")")
      "You may only submit two fanart posts in a 7-day period."
      today p1 p2 junk ht2 ht3 ht4 h11 h12 h13 h21 h22 h23
    unfold check_fanart_frequency
    rw [e]
    simp [remove, ht2]
  · intro now config today p1 p2 junk ht2 ht3 ht4 h11 h12 h13 h21 h22 h23
    have e := freqScanAux_three false now config today is_clip clipWindow
      (fun _ => "Too many clips submitted")
      "You may only submit two clips every 30 days."
      today p1 p2 junk ht2 ht3 ht4 h11 h12 h13 h21 h22 h23
    unfold check_clip_frequency
    rw [e]
    simp [remove, ht2]

/-- C5 witness: both halves of the amended claim instantiated concretely —
Scenario B for fanart (citing the day-2 item) and a clip triple with the
fixed identifier-free reason. -/
theorem C5_amended_witness :
    check_fanart_frequency false now0 cfgA basePost
        ([basePost, postD5, postD2] ++ [postD0]) =
      ⟨3, [basePost, postD5, postD2],
        [Effect.modRemove basePost.id ("Recent fanart (id: " ++ postD2.id ++ ")"),
         Effect.sendRemovalMessage basePost.id (removalMessageTemplate
           "You may only submit two fanart posts in a 7-day period.")]⟩
    ∧ check_clip_frequency false now0 cfgA clipToday ([clipToday, clipP1, clipP2] ++ []) =
      ⟨3, [clipToday, clipP1, clipP2],
        [Effect.modRemove clipToday.id "Too many clips submitted",
         Effect.sendRemovalMessage clipToday.id (removalMessageTemplate
           "You may only submit two clips every 30 days.")]⟩ :=
  ⟨C5_amended.1 now0 cfgA basePost postD5 postD2 [postD0]
    (by decide) (by decide) (by decide) (by decide) (by decide) (by decide)
    (by decide) (by decide) (by decide),
   C5_amended.2 now0 cfgA clipToday clipP1 clipP2 []
    (by decide) (by decide) (by decide) (by decide) (by decide) (by decide)
    (by decide) (by decide) (by decide)⟩

section WindowInvariant

variable (debug : Bool) (now : Int) (config : Config) (post : Submission)
  (pred : Config → Submission → Bool) (window : Int)
  (reasonOf : Submission → String) (message : String)

/-- When every remaining listing entry is out of window, the scan counts
nothing and issues nothing: it either skips (removed in-area) or breaks. -/
theorem freqScanAux_out_of_window (count : Nat) (subs : List Submission) :
    (∀ s ∈ subs, window < now - s.created_utc) →
    freqScanAux debug now config post pred window reasonOf message count subs =
      ⟨count, [], []⟩ := by
  induction subs generalizing count with
  | nil => intro _; rfl
  | cons t rest ih =>
    intro h
    have hw : window < now - t.created_utc := h t (List.mem_cons_self t rest)
    have hrest : ∀ x ∈ rest, window < now - x.created_utc :=
      fun x hx => h x (List.mem_cons_of_mem t hx)
    cases hskip : (decide (t.subreddit = config.subreddit) && is_removed t) with
    | true =>
      simp only [freqScanAux, hskip, if_true]
      exact ih count hrest
    | false =>
      simp [freqScanAux, hskip, hw]

/-- Every submission counted by the scan is within the window — out-of-window
items are never counted, whatever the listing order. -/
theorem freqScanAux_counted_in_window (count : Nat) (subs : List Submission) :
    ∀ s ∈ (freqScanAux debug now config post pred window reasonOf message count subs).counted,
      now - s.created_utc ≤ window := by
  induction subs generalizing count with
  | nil => intro s hs; simp [freqScanAux] at hs
  | cons t rest ih =>
    intro s hs
    cases hskip : (decide (t.subreddit = config.subreddit) && is_removed t) with
    | true =>
      simp only [freqScanAux, hskip, if_true] at hs
      exact ih count s hs
    | false =>
      by_cases hgt : now - t.created_utc > window
      · simp [freqScanAux, hskip, hgt] at hs
      · cases hpred : pred config t with
        | true =>
          by_cases hlim : count + 1 > 2
          · simp [freqScanAux, hskip, hgt, hpred, hlim] at hs
            rw [hs]; omega
          · simp only [freqScanAux, hskip, Bool.false_eq_true, if_false,
              if_neg hgt, hpred, if_true, if_neg hlim, List.mem_cons] at hs
            rcases hs with hs | hs
            · rw [hs]; omega
            · exact ih (count + 1) s hs
        | false =>
          by_cases hlim : count > 2
          · simp [freqScanAux, hskip, hgt, hpred, hlim] at hs
          · simp only [freqScanAux, hskip, Bool.false_eq_true, if_false,
              if_neg hgt, hpred, if_neg hlim] at hs
            exact ih count s hs

/-- On a newest-first listing (creation times non-increasing), stopping at the
first out-of-window entry loses nothing: the scan of the full listing equals
the scan of its maximal in-window prefix. -/
theorem freqScanAux_takeWhile (count : Nat) (subs : List Submission) :
    List.Pairwise (fun a b => b.created_utc ≤ a.created_utc) subs →
    freqScanAux debug now config post pred window reasonOf message count subs =
      freqScanAux debug now config post pred window reasonOf message count
        (subs.takeWhile fun s => decide (now - s.created_utc ≤ window)) := by
  induction subs generalizing count with
  | nil => intro _; rfl
  | cons t rest ih =>
    intro hp
    rw [List.pairwise_cons] at hp
    obtain ⟨hhead, htail⟩ := hp
    by_cases hwin : now - t.created_utc ≤ window
    · have htw : List.takeWhile (fun s => decide (now - s.created_utc ≤ window)) (t :: rest) =
          t :: List.takeWhile (fun s => decide (now - s.created_utc ≤ window)) rest := by
        simp only [List.takeWhile_cons, decide_eq_true hwin, if_true]
      rw [htw]
      have hgt : ¬ now - t.created_utc > window := not_lt.mpr hwin
      cases hskip : (decide (t.subreddit = config.subreddit) && is_removed t) with
      | true =>
        simp only [freqScanAux, hskip, if_true]
        exact ih count htail
      | false =>
        cases hpred : pred config t with
        | true =>
          by_cases hlim : count + 1 > 2
          · simp [freqScanAux, hskip, hgt, hpred, hlim]
          · simp only [freqScanAux, hskip, Bool.false_eq_true, if_false,
              if_neg hgt, hpred, if_true, if_neg hlim]
            rw [ih (count + 1) htail]
        | false =>
          by_cases hlim : count > 2
          · simp [freqScanAux, hskip, hgt, hpred, hlim]
          · simp only [freqScanAux, hskip, Bool.false_eq_true, if_false,
              if_neg hgt, hpred, if_neg hlim]
            exact ih count htail
    · have htw : List.takeWhile (fun s => decide (now - s.created_utc ≤ window)) (t :: rest) =
          [] := by
        simp only [List.takeWhile_cons]
        rw [if_neg]
        simp [hwin]
      rw [htw]
      have hgt : window < now - t.created_utc := lt_of_not_ge hwin
      have hrest : ∀ x ∈ rest, window < now - x.created_utc := by
        intro x hx
        have := hhead x hx
        omega
      cases hskip : (decide (t.subreddit = config.subreddit) && is_removed t) with
      | true =>
        simp only [freqScanAux, hskip, if_true]
        exact freqScanAux_out_of_window debug now config post pred window
          reasonOf message count rest hrest
      | false =>
        simp [freqScanAux, hskip, hgt]

end WindowInvariant

/-- C4: in every window-frequency scan (fanart and video checks shown), no
out-of-window item is ever counted; on a newest-first listing the scan equals
the scan of the maximal in-window prefix, so stopping at the first
out-of-window entry misses no in-window item; and rescanning the unchanged
history yields the identical result. -/
theorem C4_window_invariant (debug : Bool) (now : Int) (config : Config)
    (post : Submission) (subs : List Submission)
    (hsort : List.Pairwise (fun a b => b.created_utc ≤ a.created_utc) subs) :
    (∀ s ∈ (check_fanart_frequency debug now config post subs).counted,
        now - s.created_utc ≤ fanartWindow)
    ∧ check_fanart_frequency debug now config post subs =
        check_fanart_frequency debug now config post
          (subs.takeWhile fun s => decide (now - s.created_utc ≤ fanartWindow))
    ∧ (∀ s ∈ (check_video_frequency debug now config post subs).counted,
        now - s.created_utc ≤ fanartWindow)
    ∧ check_video_frequency debug now config post subs =
        check_video_frequency debug now config post
          (subs.takeWhile fun s => decide (now - s.created_utc ≤ fanartWindow))
    ∧ check_fanart_frequency debug now config post subs =
        check_fanart_frequency debug now config post subs := by
  refine ⟨?_, ?_, ?_, ?_, rfl⟩
  · exact freqScanAux_counted_in_window debug now config post is_fanart fanartWindow
      _ _ 0 subs
  · exact freqScanAux_takeWhile debug now config post is_fanart fanartWindow
      _ _ 0 subs hsort
  · exact freqScanAux_counted_in_window debug now config post is_video fanartWindow
      _ _ 0 subs
  · exact freqScanAux_takeWhile debug now config post is_video fanartWindow
      _ _ 0 subs hsort

/-- C4 witness: the invariant instantiated on a concrete newest-first listing
with one out-of-window entry. -/
theorem C4_window_invariant_witness :
    List.Pairwise (fun a b => b.created_utc ≤ a.created_utc)
      [basePost, postD5, { basePost with id := "old", created_utc := now0 - 700000 }]
    ∧ ((∀ s ∈ (check_fanart_frequency false now0 cfgA basePost
          [basePost, postD5, { basePost with id := "old", created_utc := now0 - 700000 }]).counted,
        now0 - s.created_utc ≤ fanartWindow)
    ∧ check_fanart_frequency false now0 cfgA basePost
        [basePost, postD5, { basePost with id := "old", created_utc := now0 - 700000 }] =
        check_fanart_frequency false now0 cfgA basePost
          ([basePost, postD5,
            { basePost with id := "old", created_utc := now0 - 700000 }].takeWhile
            fun s => decide (now0 - s.created_utc ≤ fanartWindow))
    ∧ (∀ s ∈ (check_video_frequency false now0 cfgA basePost
          [basePost, postD5, { basePost with id := "old", created_utc := now0 - 700000 }]).counted,
        now0 - s.created_utc ≤ fanartWindow)
    ∧ check_video_frequency false now0 cfgA basePost
        [basePost, postD5, { basePost with id := "old", created_utc := now0 - 700000 }] =
        check_video_frequency false now0 cfgA basePost
          ([basePost, postD5,
            { basePost with id := "old", created_utc := now0 - 700000 }].takeWhile
            fun s => decide (now0 - s.created_utc ≤ fanartWindow))
    ∧ check_fanart_frequency false now0 cfgA basePost
        [basePost, postD5, { basePost with id := "old", created_utc := now0 - 700000 }] =
        check_fanart_frequency false now0 cfgA basePost
          [basePost, postD5, { basePost with id := "old", created_utc := now0 - 700000 }]) :=
  ⟨by decide,
   C4_window_invariant false now0 cfgA basePost
     [basePost, postD5, { basePost with id := "old", created_utc := now0 - 700000 }]
     (by decide)⟩

/-- The feed scan grows `checked` by at most one entry per page item. -/
theorem pollScan_length (config : Config) (checked : List String)
    (page : List Submission) :
    (pollScan config checked page).1.length ≤ checked.length + page.length := by
  induction page generalizing checked with
  | nil => simp [pollScan]
  | cons p ps ih =>
    by_cases hmem : p.id ∈ checked
    · simp only [pollScan, if_pos hmem]
      have := ih checked
      simp only [List.length_cons]
      omega
    · simp only [pollScan, if_neg hmem]
      have := ih (checked ++ [p.id])
      simp only [List.length_append, List.length_cons, List.length_nil] at this ⊢
      omega

/-- A post whose id is in `checked` when the page scan starts is never
processed during that scan. -/
theorem pollScan_no_reprocess (config : Config) (checked : List String)
    (page : List Submission) :
    ∀ idv ∈ checked, ∀ e ∈ (pollScan config checked page).2, e.1 ≠ idv := by
  induction page generalizing checked with
  | nil => intro idv _ e he; simp [pollScan] at he
  | cons p ps ih =>
    intro idv hid e he
    by_cases hmem : p.id ∈ checked
    · simp only [pollScan, if_pos hmem] at he
      exact ih checked idv hid e he
    · simp only [pollScan, if_neg hmem] at he
      rcases List.mem_cons.mp he with rfl | he'
      · intro h
        apply hmem
        have hp : p.id = idv := h
        rw [hp]
        exact hid
      · exact ih (checked ++ [p.id]) idv (List.mem_append_left _ hid) e he'

/-- Pruning to a positive bound caps the length at the bound. -/
theorem pruneChecked_length (l : List String) (k : Nat) (hk : k ≠ 0) :
    (pruneChecked l k).length ≤ k := by
  simp only [pruneChecked, if_neg hk, List.length_drop]
  omega

/-- C7: after a poll iteration's pruning step the checked list holds at most
`3 * posts_per_run` entries, and no post whose id was already in the checked
list at the start of the page is processed again (no checks run on it). -/
theorem C7_recency_tracker (config : Config) (checked : List String)
    (page : List Submission)
    (hc : checked.length ≤ 3 * config.posts_per_run)
    (hp : page.length ≤ config.posts_per_run) :
    (pollStep config checked page).1.length ≤ 3 * config.posts_per_run
    ∧ ∀ idv ∈ checked, ∀ e ∈ (pollStep config checked page).2, e.1 ≠ idv := by
  constructor
  · by_cases hzero : 3 * config.posts_per_run = 0
    · have hpage : page = [] := by
        cases page with
        | nil => rfl
        | cons p ps =>
          exfalso
          simp at hp
          omega
      subst hpage
      have hcz : checked.length = 0 := by omega
      simp only [pollStep, pollScan]
      rw [hzero]
      simp [pruneChecked, hcz]
    · simp only [pollStep]
      exact pruneChecked_length (pollScan config checked page).1
        (3 * config.posts_per_run) hzero
  · intro idv hid e he
    simp only [pollStep] at he
    exact pollScan_no_reprocess config checked page idv hid e he

/-- C7 witness: a concrete iteration with one already-checked id. -/
theorem C7_recency_tracker_witness :
    (["a"] : List String).length ≤ 3 * cfgA.posts_per_run
    ∧ ([basePost] : List Submission).length ≤ cfgA.posts_per_run
    ∧ ((pollStep cfgA ["a"] [basePost]).1.length ≤ 3 * cfgA.posts_per_run
       ∧ ∀ idv ∈ (["a"] : List String), ∀ e ∈ (pollStep cfgA ["a"] [basePost]).2, e.1 ≠ idv) :=
  ⟨by decide, by decide, C7_recency_tracker cfgA ["a"] [basePost] (by decide) (by decide)⟩

/-- The main loop never invokes the self-promotion ratio check: the checks a
post can trigger are only the four frequency checks. -/
theorem spRatio_not_in_processPost (config : Config) (p : Submission) :
    Check.spRatio ∉ processPost config p := by
  by_cases h1 : is_fanart config p = true <;>
    by_cases h2 : is_clip config p = true <;>
      by_cases h3 : is_video_edit config p = true <;>
        by_cases h4 : is_video config p = true <;>
          simp [processPost, h1, h2, h3, h4]

/-- Every processed entry of a page scan carries only frequency checks. -/
theorem pollScan_checks (config : Config) (checked : List String)
    (page : List Submission) :
    ∀ e ∈ (pollScan config checked page).2, Check.spRatio ∉ e.2 := by
  induction page generalizing checked with
  | nil => intro e he; simp [pollScan] at he
  | cons p ps ih =>
    intro e he
    by_cases hmem : p.id ∈ checked
    · simp only [pollScan, if_pos hmem] at he
      exact ih checked e he
    · simp only [pollScan, if_neg hmem] at he
      rcases List.mem_cons.mp he with rfl | he'
      · exact spRatio_not_in_processPost config p
      · exact ih (checked ++ [p.id]) e he'

/-- C10: for every post processed by a poll iteration, the self-promotion
ratio check is never among the invoked checks — only the four per-category
frequency checks can run (the ratio block is commented out in the source). -/
theorem C10_sp_ratio_never_invoked (config : Config) (checked : List String)
    (page : List Submission) (e : String × List Check)
    (he : e ∈ (pollStep config checked page).2) :
    Check.spRatio ∉ e.2 := by
  simp only [pollStep] at he
  exact pollScan_checks config checked page e he

/-- C10 witness: the concrete fanart post triggers only the fanart check. -/
theorem C10_witness :
    (("t0", [Check.fanartFreq]) : String × List Check) ∈ (pollStep cfgA [] [basePost]).2
    ∧ Check.spRatio ∉ (("t0", [Check.fanartFreq]) : String × List Check).2 :=
  ⟨by decide,
   C10_sp_ratio_never_invoked cfgA [] [basePost] ("t0", [Check.fanartFreq]) (by decide)⟩
